import Mathlib

/-!
Shallow embedding of the session/synchronization engine of the
`voicemailViewer` Lightning web component
(`src/force-app/main/default/lwc/voicemailViewer/voicemailViewer.js`),
together with proofs settling the specification claims about it.

Conventions of the embedding:
* `localStorage` is modelled as `LocalStore` (the two keys the component
  uses), `sessionStorage` as `SessionStore` (the single PKCE key).
  `getItem` returning `null` is `Option.none`.
* JavaScript truthiness checks on strings (`if (token && expiration)`,
  `vm.id ? _ : _`, `existing?.audioUrl || null`) are modelled by
  `jsTruthyStr` / `jsStrOrNull`: the empty string is falsy, `null` is falsy.
* `parseInt(s, 10)` is modelled by `parseIntJs`; a `NaN` result is
  `Option.none`, and every JS comparison `now < NaN` is `false`.
* An `await`ed network call is modelled by passing the call's outcome as an
  explicit `ApiResult` argument; a thrown `Error` carries its message string.
* A call the source does not `await` (`this.handleLogin()`,
  `this.loadVoicemails(true)`, the `updateVoicemail` issued by
  `handleDelete`/`handleSaveNote`) is recorded as an `Effect`; state changes
  that the source performs inside the un-awaited `updateVoicemail` after its
  `await` point are applied after the caller's synchronous code, matching
  the single-threaded event-loop ordering.
* Locale/clock dependent display helpers (`toLocaleString`,
  `getRelativeTime`'s use of the current time, the `lastUpdated` stamp) are
  supplied by a `DisplayEnv` of abstract functions; everything else is
  translated directly.
-/

/-- JS truthiness of a nullable string: `null` and `""` are falsy. -/
def jsTruthyStr : Option String → Bool
  | none => false
  | some s => !(s == "")

/-- JS `x || null` on a nullable string: a falsy value collapses to `null`. -/
def jsStrOrNull (o : Option String) : Option String :=
  if jsTruthyStr o then o else none

/-- Leading-digit parse used by `parseIntJs`: `none` when the first
character is not a digit. -/
def parseLeadingDigits : List Char → Option Nat
  | [] => none
  | c :: cs =>
    if c.isDigit then
      some ((c :: cs).takeWhile Char.isDigit |>.foldl
        (fun acc d => acc * 10 + (d.toNat - 48)) 0)
    else none

/-- `parseInt(s, 10)`: trim whitespace, optional sign, leading digits;
`none` models `NaN`. -/
def parseIntJs (s : String) : Option Int :=
  match s.data.dropWhile Char.isWhitespace with
  | '-' :: rest => (parseLeadingDigits rest).map (fun n => -(n : Int))
  | '+' :: rest => (parseLeadingDigits rest).map (fun n => (n : Int))
  | cs => (parseLeadingDigits cs).map (fun n => (n : Int))

/-- The two `localStorage` keys the component reads and writes:
`genesyscloud_access_token` and `genesyscloud_token_expiration`. -/
structure LocalStore where
  accessToken : Option String
  tokenExpiration : Option String
  deriving Repr, DecidableEq

/-- The single `sessionStorage` key: `pkce_code_verifier`. -/
structure SessionStore where
  pkceCodeVerifier : Option String
  deriving Repr, DecidableEq

/-- Result of `getAccessToken()`: the possibly-updated store, the updated
`isAuthenticated` flag, and the returned token (`none` = `null`). -/
structure TokenReadResult where
  store : LocalStore
  isAuthenticated : Bool
  token : Option String
  deriving Repr, DecidableEq

/-- `getAccessToken()` (voicemailViewer.js lines 309-327): returns the token
when both keys are present (truthy) and `now < parseInt(expiration, 10)`;
when both are present but that comparison fails, removes both keys and sets
`isAuthenticated = false`; when either key is missing, returns `null`
touching nothing. -/
def getAccessToken (ls : LocalStore) (isAuth : Bool) (now : Int) :
    TokenReadResult :=
  if jsTruthyStr ls.accessToken && jsTruthyStr ls.tokenExpiration then
    let notYetExpired :=
      match ls.tokenExpiration with
      | some e =>
        match parseIntJs e with
        | some v => decide (now < v)
        | none => false
      | none => false
    if notYetExpired then
      { store := ls, isAuthenticated := isAuth, token := ls.accessToken }
    else
      { store := { accessToken := none, tokenExpiration := none },
        isAuthenticated := false, token := none }
  else
    { store := ls, isAuthenticated := isAuth, token := none }

example :
    getAccessToken { accessToken := some "t", tokenExpiration := some "100" }
      true 50 =
    { store := { accessToken := some "t", tokenExpiration := some "100" },
      isAuthenticated := true, token := some "t" } := by decide

example :
    getAccessToken { accessToken := some "t", tokenExpiration := some "100" }
      true 100 =
    { store := { accessToken := none, tokenExpiration := none },
      isAuthenticated := false, token := none } := by decide

example :
    getAccessToken { accessToken := some "t", tokenExpiration := none }
      true 0 =
    { store := { accessToken := some "t", tokenExpiration := none },
      isAuthenticated := true, token := none } := by decide

/-- `trim` on a plain string, implemented over the character list so it
reduces in the kernel. -/
def trimString (s : String) : String :=
  ⟨((s.data.dropWhile Char.isWhitespace).reverse.dropWhile
      Char.isWhitespace).reverse⟩

/-- `formatDuration(durationSeconds)` (lines 358-365): `'0:00'` for a falsy
duration, otherwise `minutes:paddedSeconds`. -/
def formatDuration (durationSeconds : Nat) : String :=
  if durationSeconds == 0 then "0:00"
  else
    let minutes := durationSeconds / 60
    let remainingSeconds := durationSeconds % 60
    let sec := toString remainingSeconds
    toString minutes ++ ":" ++ (if sec.data.length < 2 then "0" ++ sec else sec)

/-- `getCardClass(isRead, isExpanded)` (lines 620-625). -/
def getCardClass (isRead isExpanded : Bool) : String :=
  let baseClass := "slds-card slds-m-bottom_small"
  let readClass := if isRead then "read-card" else "unread-card"
  let expandedClass := if isExpanded then "expanded-card" else ""
  trimString (baseClass ++ " " ++ readClass ++ " " ++ expandedClass)

/-- Character class `[\d\s\-\(\)]` of the phone-number regex. -/
def phoneClassChar (c : Char) : Bool :=
  c.isDigit || c.isWhitespace || c == '-' || c == '(' || c == ')'

/-- Match of `\d[\d\s\-\(\)]+` at the head of the list. -/
def matchPhoneCore : List Char → Option (List Char)
  | [] => none
  | c :: cs =>
    if c.isDigit then
      let run := cs.takeWhile phoneClassChar
      if run.isEmpty then none else some (c :: run)
    else none

/-- Match of `\+?\d[\d\s\-\(\)]+` at the head of the list: a leading `'+'`
only matches when a digit follows (the empty alternative of `\+?` cannot
succeed there because `'+'` is not a digit). -/
def matchPhoneAt (l : List Char) : Option (List Char) :=
  match l with
  | '+' :: rest => (matchPhoneCore rest).map (fun m => '+' :: m)
  | rest => matchPhoneCore rest

/-- Leftmost match of the phone-number regex, scanning positions left to
right as `String.prototype.match` does. -/
def findPhoneMatch : List Char → Option (List Char)
  | [] => none
  | c :: cs =>
    match matchPhoneAt (c :: cs) with
    | some m => some m
    | none => findPhoneMatch cs

/-- `extractPhoneNumber(callerAddress)` (lines 792-796): leftmost match of
`/\+?\d[\d\s\-\(\)]+/` with whitespace, dashes and parentheses removed;
`null` when the input is falsy or there is no match. -/
def extractPhoneNumber (callerAddress : String) : Option String :=
  if callerAddress == "" then none
  else
    match findPhoneMatch callerAddress.data with
    | some m =>
      some ⟨m.filter (fun c =>
        !(c.isWhitespace || c == '-' || c == '(' || c == ')'))⟩
    | none => none

example : extractPhoneNumber "tel:+1 (317) 555-0199;ext=2" =
    some "+13175550199" := by decide

example : extractPhoneNumber "no digits here" = none := by decide

/-- Locale- and clock-dependent display helpers: `toLocaleString` for
`formatDate`, the current-time arithmetic of `getRelativeTime`, and
`toLocaleTimeString` for the `lastUpdated` stamp. They are inputs of the
environment, not translated, because their output depends on the host's
clock and locale. -/
structure DisplayEnv where
  formatDateFn : String → String
  relativeTimeFn : String → String
  nowTimeString : String

/-- `formatDate(dateString)` (lines 367-370): `''` for a falsy input,
otherwise the locale rendering. -/
def formatDate (env : DisplayEnv) (dateString : String) : String :=
  if dateString == "" then "" else env.formatDateFn dateString

/-- `getRelativeTime(dateString)` (lines 577-594): `''` for a falsy input,
otherwise the clock-dependent relative rendering. -/
def getRelativeTime (env : DisplayEnv) (dateString : String) : String :=
  if dateString == "" then "" else env.relativeTimeFn dateString

/-- A voicemail record as returned by `POST /api/v2/voicemail/search`:
the server-owned fields the component reads. A field the server omits is
modelled by its JS-falsy coalescing target (`read || false`,
`note || ''`). -/
structure ServerVM where
  id : String
  callerAddress : String
  createdDate : String
  audioRecordingDurationSeconds : Nat
  read : Bool
  note : String
  deleted : Bool
  deriving Repr, DecidableEq

/-- A record of the component's `this.voicemails` cache: the server fields
kept by the `...vm` spread plus every field the mapper at lines 243-268
adds. -/
structure CachedVM where
  id : String
  callerAddress : String
  createdDate : String
  audioRecordingDurationSeconds : Nat
  read : Bool
  note : String
  deleted : Bool
  formattedDuration : String
  formattedDate : String
  relativeTime : String
  isLoading : Bool
  audioUrl : Option String
  audioElementId : String
  cardClass : String
  callerClass : String
  readMenuLabel : String
  isEditing : Bool
  isExpanded : Bool
  originalNote : String
  showMenu : Bool
  fullCallerAddress : String
  phoneNumber : Option String
  deriving Repr, DecidableEq

/-- The body of the `.map` at lines 245-268 of `loadVoicemails`: builds the
cached record for one server record, looking up `existing` in the prior
cache by `id`. -/
def mergeOne (env : DisplayEnv) (prior : List CachedVM) (vm : ServerVM) :
    CachedVM :=
  let existing := prior.find? (fun v => v.id == vm.id)
  let callerAddress := vm.callerAddress
  { id := vm.id
    callerAddress := vm.callerAddress
    createdDate := vm.createdDate
    audioRecordingDurationSeconds := vm.audioRecordingDurationSeconds
    read := vm.read
    note := vm.note
    deleted := vm.deleted
    formattedDuration := formatDuration vm.audioRecordingDurationSeconds
    formattedDate := formatDate env vm.createdDate
    relativeTime := getRelativeTime env vm.createdDate
    isLoading := match existing with | some e => e.isLoading | none => false
    audioUrl := match existing with
      | some e => jsStrOrNull e.audioUrl
      | none => none
    audioElementId := "audio-" ++ vm.id
    cardClass := getCardClass vm.read
      (match existing with | some e => e.isExpanded | none => false)
    callerClass := if vm.read then "read-text" else "unread-text"
    readMenuLabel := if vm.read then "Mark as Unread" else "Mark as Read"
    isEditing := match existing with | some e => e.isEditing | none => false
    isExpanded := match existing with | some e => e.isExpanded | none => false
    originalNote := vm.note
    showMenu := false
    fullCallerAddress :=
      if callerAddress.data.length > 15 then
        String.mk (callerAddress.data.take 15) ++ "..."
      else callerAddress
    phoneNumber := extractPhoneNumber callerAddress }

/-- The merge of lines 243-268: drop soft-deleted records from the server
page, then map each survivor through `mergeOne` against the prior cache. -/
def mergeVoicemails (env : DisplayEnv) (prior : List CachedVM)
    (results : List ServerVM) : List CachedVM :=
  (results.filter (fun vm => !vm.deleted)).map (mergeOne env prior)

/-- `get unreadCount` (lines 627-629). -/
def unreadCount (voicemails : List CachedVM) : Nat :=
  (voicemails.filter (fun vm => !vm.read)).length

/-- Prefix test over character lists (kernel-reducible). -/
def isPrefixList : List Char → List Char → Bool
  | [], _ => true
  | _ :: _, [] => false
  | p :: ps, c :: cs => p == c && isPrefixList ps cs

/-- Substring test over character lists. -/
def listContainsSub (pat : List Char) : List Char → Bool
  | [] => pat.isEmpty
  | c :: cs => isPrefixList pat (c :: cs) || listContainsSub pat cs

/-- `s.includes(pat)` of JS strings. -/
def includesJs (s pat : String) : Bool :=
  listContainsSub pat.data s.data

/-- Observable actions of the component: calls it fires without awaiting
them (`handleLogin`, `loadVoicemails`), the network requests it issues, and
the `voicemailcount` events it dispatches. -/
inductive Effect where
  | loginCall
  | fetchCall (showLoader : Bool)
  | searchRequest
  | patchRequest (id : String)
  | mediaRequest (id : String)
  | badgeEvent (count : Nat)
  deriving Repr, DecidableEq

/-- Outcome of an `await`ed `callGenesysCloudApi`: the parsed JSON, or the
message of the `Error` it threw. -/
inductive ApiResult (α : Type) where
  | ok (value : α)
  | apiError (message : String)
  deriving Repr, DecidableEq

/-- Outcome of the underlying `fetch` inside `callGenesysCloudApi`. -/
inductive HttpOutcome (α : Type) where
  | success (json : α)
  | httpFailure (status : Nat) (errorText : String)
  | networkFailure (message : String)
  deriving Repr, DecidableEq

/-- `callGenesysCloudApi` (lines 329-356): a non-ok HTTP response is turned
into a thrown `Error` whose message is
`` `API error (${response.status}): ${errorText}` ``; a network failure's
error is rethrown unchanged. -/
def callGenesysCloudApi {α : Type} (o : HttpOutcome α) : ApiResult α :=
  match o with
  | HttpOutcome.success j => ApiResult.ok j
  | HttpOutcome.httpFailure status errorText =>
    ApiResult.apiError ("API error (" ++ toString status ++ "): " ++ errorText)
  | HttpOutcome.networkFailure m => ApiResult.apiError m

/-- The component state touched by the session/synchronization engine,
plus the `localStorage` it reads through `getAccessToken`. -/
structure VMState where
  voicemails : List CachedVM
  currentPage : Int
  pageSize : Int
  pageCount : Int
  displayCount : Nat
  hasVoicemail : Bool
  isLoading : Bool
  isAuthenticated : Bool
  errorMessage : Option String
  lastUpdated : String
  loadedAudioUrls : List (String × String)
  localStore : LocalStore
  deriving Repr, DecidableEq

/-- `Map.has` on the insertion-ordered association list modelling
`this.loadedAudioUrls`. -/
def mapHas (m : List (String × String)) (k : String) : Bool :=
  (m.find? (fun p => p.1 == k)).isSome

/-- `Map.get`. -/
def mapGet (m : List (String × String)) (k : String) : Option String :=
  (m.find? (fun p => p.1 == k)).map (fun p => p.2)

/-- `Map.set`: overwrite in place when the key exists, append otherwise. -/
def mapSet (m : List (String × String)) (k v : String) :
    List (String × String) :=
  if mapHas m k then m.map (fun p => if p.1 == k then (k, v) else p)
  else m ++ [(k, v)]

/-- `this.getAccessToken()` as the component calls it: threads the store
and the `isAuthenticated` flag through `getAccessToken`. -/
def runGetAccessToken (s : VMState) (now : Int) : VMState × Option String :=
  let r := getAccessToken s.localStore s.isAuthenticated now
  ({ s with localStore := r.store, isAuthenticated := r.isAuthenticated },
   r.token)

/-- Mutation of the record at the first index whose `id` matches, as the
source's `findIndex` + in-place assignment pair does. -/
def updateFirstBy (l : List CachedVM) (id : String)
    (f : CachedVM → CachedVM) : List CachedVM :=
  match l with
  | [] => []
  | v :: vs => if v.id == id then f v :: vs else v :: updateFirstBy vs id f

/-- JSON body of `POST /api/v2/voicemail/search`'s response; `none` fields
are absent in the JSON. -/
structure SearchResponse where
  results : Option (List ServerVM)
  pageCount : Option Int
  deriving Repr, DecidableEq

/-- `loadVoicemails(showLoader)` (lines 202-291), the search response
passed in as the awaited outcome (`ApiResult.ok none` is a JSON `null`
body). Returns the next state and the effects fired. -/
def loadVoicemails (env : DisplayEnv) (s : VMState) (showLoader : Bool)
    (now : Int) (response : ApiResult (Option SearchResponse)) :
    VMState × List Effect :=
  let s1 := { s with isLoading := showLoader, errorMessage := none }
  let s2 := (runGetAccessToken s1 now).1
  match (runGetAccessToken s1 now).2 with
  | none => ({ s2 with isLoading := false }, [Effect.loginCall])
  | some _ =>
    match response with
    | ApiResult.apiError m =>
      if !(m == "") && includesJs m "401" then
        ({ s2 with
            localStore := { accessToken := none, tokenExpiration := none },
            isAuthenticated := false,
            isLoading := false },
         [Effect.searchRequest, Effect.loginCall])
      else
        ({ s2 with
            errorMessage := some (if m == "" then
              "An error occurred while retrieving voicemails" else m),
            isLoading := false },
         [Effect.searchRequest])
    | ApiResult.ok payload =>
      match payload.bind (fun r => r.results.map (fun rs => (r, rs))) with
      | none =>
        ({ s2 with
            voicemails := [], pageCount := 0, displayCount := 0,
            hasVoicemail := false,
            lastUpdated := "Last updated: " ++ env.nowTimeString,
            isLoading := false },
         [Effect.searchRequest, Effect.badgeEvent 0])
      | some (r, rs) =>
        let merged := mergeVoicemails env s2.voicemails rs
        ({ s2 with
            voicemails := merged,
            pageCount := r.pageCount.getD 0,
            displayCount := merged.length,
            hasVoicemail := decide (0 < merged.length),
            lastUpdated := "Last updated: " ++ env.nowTimeString,
            isLoading := false },
         [Effect.searchRequest, Effect.badgeEvent (unreadCount merged)])

/-- `handleNextPage()` (lines 295-300): guarded by the `hasNextPage`
getter (`currentPage < pageCount`); the un-awaited `loadVoicemails(true)`
invocation is recorded as an effect. -/
def handleNextPage (s : VMState) : VMState × List Effect :=
  if s.currentPage < s.pageCount then
    ({ s with currentPage := s.currentPage + 1 }, [Effect.fetchCall true])
  else (s, [])

/-- `handlePreviousPage()` (lines 302-307). -/
def handlePreviousPage (s : VMState) : VMState × List Effect :=
  if s.currentPage > 1 then
    ({ s with currentPage := s.currentPage - 1 }, [Effect.fetchCall true])
  else (s, [])

/-- The `PATCH` body of `updateVoicemail`: the three partial-update keys
the component ever sends; `none` is an absent key (`undefined`). -/
structure UpdatesPatch where
  read : Option Bool
  note : Option String
  deleted : Option Bool
  deriving Repr, DecidableEq

/-- The code of `updateVoicemail` up to its suspension point: the
synchronous `getAccessToken()` call (lines 551-552). -/
def updateVoicemailStart (s : VMState) (now : Int) : VMState :=
  (runGetAccessToken s now).1

/-- The code of `updateVoicemail` after its `await` resolves or rejects
(lines 553-574): on success, a cache update only when `updates.read` was
sent; on failure, a user-visible error message and nothing else. -/
def updateVoicemailSettle (s : VMState) (voicemailId : String)
    (updates : UpdatesPatch) (response : ApiResult Unit) :
    VMState × List Effect :=
  match response with
  | ApiResult.apiError m =>
    ({ s with errorMessage := some ("Failed to update voicemail: " ++ m) },
     [])
  | ApiResult.ok _ =>
    match (s.voicemails.find? (fun v => v.id == voicemailId)), updates.read with
    | some _, some b =>
      let vms := updateFirstBy s.voicemails voicemailId (fun v =>
        { v with
            read := b
            readMenuLabel := if b then "Mark as Unread" else "Mark as Read"
            cardClass := getCardClass b v.isExpanded
            callerClass := if b then "read-text" else "unread-text" })
      ({ s with voicemails := vms }, [Effect.badgeEvent (unreadCount vms)])
    | _, _ => (s, [])

/-- `updateVoicemail(voicemailId, updates)` run to completion for a given
response. -/
def updateVoicemailRun (s : VMState) (now : Int) (voicemailId : String)
    (updates : UpdatesPatch) (response : ApiResult Unit) :
    VMState × List Effect :=
  let s1 := updateVoicemailStart s now
  let res := updateVoicemailSettle s1 voicemailId updates response
  (res.1, Effect.patchRequest voicemailId :: res.2)

/-- `handleToggleRead` (lines 396-407) given the eventual outcome of the
`PATCH` it fires. -/
def handleToggleRead (s : VMState) (now : Int) (voicemailId : String)
    (response : ApiResult Unit) : VMState × List Effect :=
  if voicemailId == "" then (s, [])
  else
    match s.voicemails.find? (fun v => v.id == voicemailId) with
    | none => (s, [])
    | some vm =>
      let s1 := { s with voicemails := (updateFirstBy s.voicemails
        voicemailId (fun v => { v with showMenu := false })) }
      updateVoicemailRun s1 now voicemailId
        { read := some (!vm.read), note := none, deleted := none } response

/-- `handleSaveNote` (lines 507-518): the local `originalNote`/`isEditing`
writes happen synchronously after the un-awaited `updateVoicemail`
invocation; the `PATCH`'s settlement runs afterwards. -/
def handleSaveNote (s : VMState) (now : Int) (voicemailId : String)
    (response : ApiResult Unit) : VMState × List Effect :=
  match s.voicemails.find? (fun v => v.id == voicemailId) with
  | none => (s, [])
  | some vm =>
    let note := vm.note
    let s1 := updateVoicemailStart s now
    let s2 := { s1 with voicemails := (updateFirstBy s1.voicemails
      voicemailId (fun v => { v with originalNote := note,
                                     isEditing := false })) }
    let res := updateVoicemailSettle s2 voicemailId
      { read := none, note := some note, deleted := none } response
    (res.1, Effect.patchRequest voicemailId :: res.2)

/-- `handleDelete` (lines 530-548): the removal, `displayCount` update,
badge dispatch and page correction happen synchronously after the
un-awaited `updateVoicemail` invocation; the `PATCH`'s settlement runs
afterwards. -/
def handleDelete (s : VMState) (now : Int) (voicemailId : String)
    (response : ApiResult Unit) : VMState × List Effect :=
  if voicemailId == "" then (s, [])
  else
    let isLastPage := s.currentPage == s.pageCount
    let isLastItemOnPage := s.voicemails.length == 1
    let s1 := updateVoicemailStart s now
    let s2 := { s1 with
      voicemails := s1.voicemails.filter (fun vm => !(vm.id == voicemailId)) }
    let s3 := { s2 with displayCount := s2.voicemails.length }
    let badge := Effect.badgeEvent (unreadCount s3.voicemails)
    let nav :=
      if isLastPage && isLastItemOnPage && decide (s3.currentPage > 1) then
        ({ s3 with currentPage := s3.currentPage - 1 },
         [Effect.fetchCall true])
      else (s3, ([] : List Effect))
    let res := updateVoicemailSettle nav.1 voicemailId
      { read := none, note := none, deleted := some true } response
    (res.1, Effect.patchRequest voicemailId :: badge :: (nav.2 ++ res.2))

/-- JSON body of the media endpoint's response. -/
structure MediaResponse where
  mediaFileUri : Option String
  deriving Repr, DecidableEq

/-- `loadVoicemailAudio(voicemailId)` (lines 454-487) given the eventual
outcome of the media request; when the cached-URL branch or the
missing-record guard returns early, no request is issued and the given
outcome is unused. -/
def loadVoicemailAudio (s : VMState) (now : Int) (voicemailId : String)
    (response : ApiResult (Option MediaResponse)) : VMState × List Effect :=
  match s.voicemails.find? (fun v => v.id == voicemailId) with
  | none => (s, [])
  | some _ =>
    if mapHas s.loadedAudioUrls voicemailId then
      ({ s with voicemails := (updateFirstBy s.voicemails voicemailId
          (fun v => { v with audioUrl := (mapGet s.loadedAudioUrls
            voicemailId) })) },
       [])
    else
      let s1 := { s with voicemails := (updateFirstBy s.voicemails
        voicemailId (fun v => { v with isLoading := true })) }
      let s2 := (runGetAccessToken s1 now).1
      let s3 :=
        match response with
        | ApiResult.apiError m =>
          { s2 with errorMessage := some ("Failed to load audio: " ++ m) }
        | ApiResult.ok payload =>
          match payload.bind (fun mr => jsStrOrNull mr.mediaFileUri) with
          | some u =>
            { s2 with
                voicemails := (updateFirstBy s2.voicemails voicemailId
                  (fun v => { v with audioUrl := some u })),
                loadedAudioUrls := mapSet s2.loadedAudioUrls voicemailId u }
          | none =>
            { s2 with errorMessage := (some
                "Failed to load audio: Failed to retrieve voicemail audio") }
      let s4 := { s3 with voicemails := (updateFirstBy s3.voicemails
        voicemailId (fun v => { v with isLoading := false })) }
      (s4, [Effect.mediaRequest voicemailId])

/-- Parsed JSON of a successful `POST /oauth/token` response; the fields
`access_token` and `expires_in`. -/
structure TokenEndpointData where
  accessToken : String
  expiresIn : Int
  deriving Repr, DecidableEq

/-- Outcome of the token-endpoint `fetch` in `exchangeCodeForToken`. -/
inductive TokenFetchOutcome where
  | netError (message : String)
  | notOk
  | ok (tokenData : TokenEndpointData)
  deriving Repr, DecidableEq

/-- Result of `exchangeCodeForToken`: both stores, the returned value
(`none` = `null`), and the error message written to `this.errorMessage`
(`none` = not written). -/
structure ExchangeResult where
  session : SessionStore
  store : LocalStore
  token : Option String
  errorMsg : Option String
  deriving Repr, DecidableEq

/-- `exchangeCodeForToken(authCode)` (lines 751-790): a missing (falsy)
verifier or any fetch failure lands in the `catch`, which sets the error
message and returns `null` without touching either store;
`sessionStorage.removeItem('pkce_code_verifier')` runs only on the success
path, after the token and computed expiry are written. -/
def exchangeCodeForToken (ss : SessionStore) (ls : LocalStore) (now : Int)
    (outcome : TokenFetchOutcome) : ExchangeResult :=
  let failed : ExchangeResult :=
    { session := ss, store := ls, token := none,
      errorMsg := some "Failed to exchange authorization code for token" }
  if !jsTruthyStr ss.pkceCodeVerifier then failed
  else
    match outcome with
    | TokenFetchOutcome.netError _ => failed
    | TokenFetchOutcome.notOk => failed
    | TokenFetchOutcome.ok td =>
      { session := { pkceCodeVerifier := none },
        store := { accessToken := some td.accessToken,
                   tokenExpiration := some (toString (now + td.expiresIn * 1000)) },
        token := some td.accessToken,
        errorMsg := none }

/-- A concrete display environment for witnesses and counterexamples. -/
def sampleEnv : DisplayEnv :=
  { formatDateFn := fun _ => "1/1/2026, 9:00:00 AM"
    relativeTimeFn := fun _ => "2 hours ago"
    nowTimeString := "11:00:00 AM" }

/-- A concrete cached record with non-default ephemeral state. -/
def vmA : CachedVM :=
  { id := "a", callerAddress := "tel:+13175550199",
    createdDate := "2026-01-01T07:00:00Z",
    audioRecordingDurationSeconds := 65, read := false,
    note := "server note", deleted := false, formattedDuration := "1:05",
    formattedDate := "1/1/2026, 9:00:00 AM", relativeTime := "2 hours ago",
    isLoading := false, audioUrl := some "https://media.example/a.wav",
    audioElementId := "audio-a",
    cardClass := "slds-card slds-m-bottom_small unread-card expanded-card",
    callerClass := "unread-text", readMenuLabel := "Mark as Read",
    isEditing := true, isExpanded := true, originalNote := "old original",
    showMenu := true, fullCallerAddress := "tel:+1317555019...",
    phoneNumber := some "+13175550199" }

/-- The same record as the server returns it. -/
def srvA : ServerVM :=
  { id := "a", callerAddress := "tel:+13175550199",
    createdDate := "2026-01-01T07:00:00Z",
    audioRecordingDurationSeconds := 65, read := false,
    note := "server note", deleted := false }

/-- A concrete component state holding `vmA` and a valid stored token. -/
def st0 : VMState :=
  { voicemails := [vmA], currentPage := 1, pageSize := 25, pageCount := 1,
    displayCount := 1, hasVoicemail := true, isLoading := false,
    isAuthenticated := true, errorMessage := none, lastUpdated := "",
    loadedAudioUrls := [],
    localStore := { accessToken := some "tok",
                    tokenExpiration := some "1000" } }

-- scratch C1: showMenu / originalNote not carried forward
example :
    (mergeVoicemails sampleEnv [vmA] [srvA]).map
      (fun c => (c.showMenu, c.originalNote)) =
    [(false, "server note")] := by decide

-- scratch C2: failing exchange keeps the verifier
example :
    exchangeCodeForToken { pkceCodeVerifier := some "ver" }
      { accessToken := none, tokenExpiration := none } 0
      TokenFetchOutcome.notOk =
    { session := { pkceCodeVerifier := some "ver" },
      store := { accessToken := none, tokenExpiration := none },
      token := none,
      errorMsg := some "Failed to exchange authorization code for token" } := by
  decide

-- scratch C3: save-note applies locally despite remote failure
example :
    ((handleSaveNote st0 0 "a" (ApiResult.apiError "boom")).1.voicemails.map
      (fun v => (v.originalNote, v.isEditing))) =
    [("server note", false)] := by decide

-- scratch C3: delete removes locally despite remote failure
example :
    (handleDelete st0 0 "a" (ApiResult.apiError "boom")).1.voicemails = [] := by
  decide

-- scratch C4: updateVoicemail surfaces a 401 and clears nothing
example :
    (updateVoicemailRun st0 0 "a"
      { read := some true, note := none, deleted := none }
      (callGenesysCloudApi (HttpOutcome.httpFailure 401 "unauthorized"))).1.errorMessage =
    some "Failed to update voicemail: API error (401): unauthorized" := by decide

example :
    (updateVoicemailRun st0 0 "a"
      { read := some true, note := none, deleted := none }
      (callGenesysCloudApi (HttpOutcome.httpFailure 401 "unauthorized"))).1.localStore =
    { accessToken := some "tok", tokenExpiration := some "1000" } := by decide

-- scratch C8: two failing calls issue two media requests
example :
    (let r1 := loadVoicemailAudio st0 0 "a" (ApiResult.apiError "net down")
     let r2 := loadVoicemailAudio r1.1 0 "a" (ApiResult.apiError "net down")
     r1.2 ++ r2.2) =
    [Effect.mediaRequest "a", Effect.mediaRequest "a"] := by decide

-- scratch C8: success then cached hit
example :
    (let r1 := loadVoicemailAudio st0 0 "a"
       (ApiResult.ok (some { mediaFileUri := some "u1" }))
     let r2 := loadVoicemailAudio r1.1 0 "a" (ApiResult.apiError "unused")
     (r1.2, r2.2,
      (r2.1.voicemails.map (fun v => (v.audioUrl, v.isLoading))))) =
    ([Effect.mediaRequest "a"], [], [(some "u1", false)]) := by decide

/-- A second server record, distinct id, for multi-record inputs. -/
def srvB : ServerVM :=
  { id := "b", callerAddress := "tel:+13175550200",
    createdDate := "2026-01-02T07:00:00Z",
    audioRecordingDurationSeconds := 5, read := true, note := "",
    deleted := false }

lemma getAccessToken_of_valid (ls : LocalStore) (isAuth : Bool) (now : Int)
    (t e : String) (v : Int) (ht : ls.accessToken = some t) (hte : t ≠ "")
    (he : ls.tokenExpiration = some e) (hv : parseIntJs e = some v)
    (hlt : now < v) :
    getAccessToken ls isAuth now =
      { store := ls, isAuthenticated := isAuth, token := some t } := by
  have hene : e ≠ "" := by
    intro h
    rw [h] at hv
    have hnone : parseIntJs "" = none := by decide
    rw [hnone] at hv
    exact Option.noConfusion hv
  unfold getAccessToken
  rw [ht, he]
  simp [jsTruthyStr, hte, hene, hv, hlt]

lemma getAccessToken_of_expired (ls : LocalStore) (isAuth : Bool) (now : Int)
    (t e : String) (v : Int) (ht : ls.accessToken = some t) (hte : t ≠ "")
    (he : ls.tokenExpiration = some e) (hv : parseIntJs e = some v)
    (hge : ¬ now < v) :
    getAccessToken ls isAuth now =
      { store := { accessToken := none, tokenExpiration := none },
        isAuthenticated := false, token := none } := by
  have hene : e ≠ "" := by
    intro h
    rw [h] at hv
    have hnone : parseIntJs "" = none := by decide
    rw [hnone] at hv
    exact Option.noConfusion hv
  unfold getAccessToken
  rw [ht, he]
  simp [jsTruthyStr, hte, hene, hv, hge]

lemma find?_updateFirstBy (l : List CachedVM) (id : String)
    (f : CachedVM → CachedVM) (hf : ∀ v, (f v).id = v.id) :
    (updateFirstBy l id f).find? (fun v => v.id == id) =
      (l.find? (fun v => v.id == id)).map f := by
  induction l with
  | nil => rfl
  | cons v vs ih =>
    unfold updateFirstBy
    by_cases h : (v.id == id) = true
    · have h2 : ((f v).id == id) = true := by rw [hf]; exact h
      simp [List.find?, h, h2]
    · have h2 : (v.id == id) = false := by simpa using h
      simp [List.find?, h, h2, ih]

lemma mem_updateFirstBy (l : List CachedVM) (id : String)
    (f : CachedVM → CachedVM) (a : CachedVM)
    (ha : a ∈ updateFirstBy l id f) : a ∈ l ∨ ∃ v ∈ l, a = f v := by
  induction l with
  | nil => simp [updateFirstBy] at ha
  | cons v vs ih =>
    unfold updateFirstBy at ha
    by_cases h : (v.id == id) = true
    · rw [if_pos h] at ha
      rcases List.mem_cons.mp ha with h1 | h1
      · exact Or.inr ⟨v, List.mem_cons_self _ _, h1⟩
      · exact Or.inl (List.mem_cons_of_mem _ h1)
    · rw [if_neg h] at ha
      rcases List.mem_cons.mp ha with h1 | h1
      · exact Or.inl (h1 ▸ List.mem_cons_self _ _)
      · rcases ih h1 with h2 | ⟨w, hw, hwe⟩
        · exact Or.inl (List.mem_cons_of_mem _ h2)
        · exact Or.inr ⟨w, List.mem_cons_of_mem _ hw, hwe⟩

lemma updateVoicemailSettle_of_read_none (s : VMState) (id : String)
    (u : UpdatesPatch) (resp : ApiResult Unit) (h : u.read = none) :
    ∃ em, updateVoicemailSettle s id u resp =
      ({ s with errorMessage := em }, []) := by
  cases resp with
  | apiError m =>
    exact ⟨some ("Failed to update voicemail: " ++ m), rfl⟩
  | ok x =>
    refine ⟨s.errorMessage, ?_⟩
    unfold updateVoicemailSettle
    rw [h]
    cases s.voicemails.find? (fun v => v.id == id) <;> rfl

@[simp] lemma updateVoicemailStart_voicemails (s : VMState) (now : Int) :
    (updateVoicemailStart s now).voicemails = s.voicemails := rfl

@[simp] lemma updateVoicemailStart_currentPage (s : VMState) (now : Int) :
    (updateVoicemailStart s now).currentPage = s.currentPage := rfl

@[simp] lemma updateVoicemailStart_pageCount (s : VMState) (now : Int) :
    (updateVoicemailStart s now).pageCount = s.pageCount := rfl

@[simp] lemma updateVoicemailStart_displayCount (s : VMState) (now : Int) :
    (updateVoicemailStart s now).displayCount = s.displayCount := rfl

@[simp] lemma updateVoicemailStart_errorMessage (s : VMState) (now : Int) :
    (updateVoicemailStart s now).errorMessage = s.errorMessage := rfl

@[simp] lemma updateVoicemailStart_loadedAudioUrls (s : VMState) (now : Int) :
    (updateVoicemailStart s now).loadedAudioUrls = s.loadedAudioUrls := rfl

lemma updateVoicemailStart_localStore (s : VMState) (now : Int) :
    (updateVoicemailStart s now).localStore =
      (getAccessToken s.localStore s.isAuthenticated now).store := rfl

lemma settle_read_none_voicemails (s : VMState) (id : String)
    (n : Option String) (d : Option Bool) (resp : ApiResult Unit) :
    (updateVoicemailSettle s id { read := none, note := n, deleted := d }
      resp).1.voicemails = s.voicemails := by
  rcases updateVoicemailSettle_of_read_none s id
    { read := none, note := n, deleted := d } resp rfl with ⟨em, hem⟩
  rw [hem]

lemma settle_read_none_currentPage (s : VMState) (id : String)
    (n : Option String) (d : Option Bool) (resp : ApiResult Unit) :
    (updateVoicemailSettle s id { read := none, note := n, deleted := d }
      resp).1.currentPage = s.currentPage := by
  rcases updateVoicemailSettle_of_read_none s id
    { read := none, note := n, deleted := d } resp rfl with ⟨em, hem⟩
  rw [hem]

lemma settle_read_none_effects (s : VMState) (id : String)
    (n : Option String) (d : Option Bool) (resp : ApiResult Unit) :
    (updateVoicemailSettle s id { read := none, note := n, deleted := d }
      resp).2 = [] := by
  rcases updateVoicemailSettle_of_read_none s id
    { read := none, note := n, deleted := d } resp rfl with ⟨em, hem⟩
  rw [hem]

lemma handleDelete_parts (s : VMState) (now : Int) (id : String)
    (resp : ApiResult Unit) (hid : (id == "") = false) :
    (handleDelete s now id resp).1.voicemails =
      s.voicemails.filter (fun v => !(v.id == id))
    ∧ (handleDelete s now id resp).1.currentPage =
      (if (s.currentPage == s.pageCount) && (s.voicemails.length == 1)
          && decide (1 < s.currentPage)
       then s.currentPage - 1 else s.currentPage)
    ∧ (handleDelete s now id resp).2 =
      Effect.patchRequest id ::
        Effect.badgeEvent
          (unreadCount (s.voicemails.filter (fun v => !(v.id == id)))) ::
        (if (s.currentPage == s.pageCount) && (s.voicemails.length == 1)
            && decide (1 < s.currentPage)
         then [Effect.fetchCall true] else []) := by
  unfold handleDelete
  rw [hid]
  rw [if_neg (fun hx => Bool.noConfusion hx)]
  by_cases hc : ((s.currentPage == s.pageCount) && (s.voicemails.length == 1)
      && decide (1 < s.currentPage)) = true
  · simp only [updateVoicemailStart_voicemails, updateVoicemailStart_currentPage,
      gt_iff_lt, hc, if_true, settle_read_none_voicemails,
      settle_read_none_currentPage, settle_read_none_effects, List.append_nil]
    exact ⟨trivial, trivial, trivial⟩
  · simp only [updateVoicemailStart_voicemails, updateVoicemailStart_currentPage,
      gt_iff_lt, hc, if_false, Bool.false_eq_true, settle_read_none_voicemails,
      settle_read_none_currentPage, settle_read_none_effects, List.append_nil]
    exact ⟨trivial, trivial, trivial⟩

lemma getAccessToken_of_untruthy (ls : LocalStore) (isAuth : Bool)
    (now : Int)
    (h : (jsTruthyStr ls.accessToken && jsTruthyStr ls.tokenExpiration)
      = false) :
    getAccessToken ls isAuth now =
      { store := ls, isAuthenticated := isAuth, token := none } := by
  unfold getAccessToken
  rw [h]
  rw [if_neg (fun hx => Bool.noConfusion hx)]

/-- C5: `getAccessToken` never returns an expired session: with both keys
stored (a nonempty token and a parseable expiration), it returns the token
and leaves the store untouched when `now` is before the expiry, and
otherwise returns `null` having deleted both keys, leaving the store
empty. -/
theorem C5_token_read_never_expired (ls : LocalStore) (isAuth : Bool)
    (now : Int) (t e : String) (v : Int) (ht : ls.accessToken = some t)
    (hte : t ≠ "") (he : ls.tokenExpiration = some e)
    (hv : parseIntJs e = some v) :
    (now < v →
      getAccessToken ls isAuth now =
        { store := ls, isAuthenticated := isAuth, token := some t })
    ∧ (¬ now < v →
      getAccessToken ls isAuth now =
        { store := { accessToken := none, tokenExpiration := none },
          isAuthenticated := false, token := none }) :=
  ⟨fun h => getAccessToken_of_valid ls isAuth now t e v ht hte he hv h,
   fun h => getAccessToken_of_expired ls isAuth now t e v ht hte he hv h⟩

/-- Witness for C5 at a concrete store and clock. -/
theorem C5_token_read_never_expired_witness :
    getAccessToken
      { accessToken := some "tok", tokenExpiration := some "1000" } true 500 =
      { store := { accessToken := some "tok",
                   tokenExpiration := some "1000" },
        isAuthenticated := true, token := some "tok" } :=
  (C5_token_read_never_expired _ true 500 "tok" "1000" 1000 rfl (by decide)
    rfl (by decide)).1 (by decide)

/-- C10: a partial Token Store entry (either key absent) makes
`getAccessToken` return `null` while leaving the store exactly as it was;
and the store is only ever modified by a read when both keys are truthy
and the stored expiration is not in the future. -/
theorem C10_partial_entry_preserved (ls : LocalStore) (isAuth : Bool)
    (now : Int) :
    (ls.accessToken = none ∨ ls.tokenExpiration = none →
      getAccessToken ls isAuth now =
        { store := ls, isAuthenticated := isAuth, token := none })
    ∧ ((getAccessToken ls isAuth now).store ≠ ls →
        jsTruthyStr ls.accessToken = true ∧
        jsTruthyStr ls.tokenExpiration = true ∧
        ∀ e v, ls.tokenExpiration = some e → parseIntJs e = some v →
          ¬ now < v) := by
  constructor
  · intro h
    apply getAccessToken_of_untruthy
    rcases h with h | h <;> rw [h] <;> simp [jsTruthyStr]
  · intro hne
    by_cases h1 : (jsTruthyStr ls.accessToken &&
        jsTruthyStr ls.tokenExpiration) = true
    · rcases (Bool.and_eq_true _ _).mp h1 with ⟨h1a, h1b⟩
      refine ⟨h1a, h1b, ?_⟩
      intro e v he hv hlt
      rcases hopt : ls.accessToken with _ | t
      · rw [hopt] at h1a
        simp [jsTruthyStr] at h1a
      · have hte : t ≠ "" := by
          rw [hopt] at h1a
          simpa [jsTruthyStr] using h1a
        have hval := getAccessToken_of_valid ls isAuth now t e v hopt hte
          he hv hlt
        rw [hval] at hne
        exact hne rfl
    · have h0 := getAccessToken_of_untruthy ls isAuth now
        (Bool.eq_false_iff.mpr h1)
      rw [h0] at hne
      exact absurd rfl hne

/-- Witness for C10: a token with no expiration entry is left in place. -/
theorem C10_partial_entry_preserved_witness :
    getAccessToken { accessToken := some "tok", tokenExpiration := none }
      true 0 =
      { store := { accessToken := some "tok", tokenExpiration := none },
        isAuthenticated := true, token := none } :=
  (C10_partial_entry_preserved
    { accessToken := some "tok", tokenExpiration := none } true 0).1
    (Or.inr rfl)

/-- C7: `handlePreviousPage` at page 1 and `handleNextPage` at or past the
page count change nothing and fire nothing; away from those boundaries they
step the page by exactly one and invoke `loadVoicemails(true)` (busy
indicator shown); page navigation therefore keeps `currentPage` within
`[1, pageCount]` whenever it started there. -/
theorem C7_pagination_boundaries (s : VMState) :
    (s.currentPage = 1 → handlePreviousPage s = (s, []))
    ∧ (s.pageCount ≤ s.currentPage → handleNextPage s = (s, []))
    ∧ (s.currentPage < s.pageCount →
        handleNextPage s =
          ({ s with currentPage := s.currentPage + 1 },
           [Effect.fetchCall true]))
    ∧ (1 < s.currentPage →
        handlePreviousPage s =
          ({ s with currentPage := s.currentPage - 1 },
           [Effect.fetchCall true]))
    ∧ (1 ≤ s.currentPage → 1 ≤ (handlePreviousPage s).1.currentPage)
    ∧ (s.currentPage ≤ s.pageCount →
        (handleNextPage s).1.currentPage ≤ s.pageCount) := by
  refine ⟨?_, ?_, ?_, ?_, ?_, ?_⟩
  · intro h
    unfold handlePreviousPage
    rw [if_neg (by omega)]
  · intro h
    unfold handleNextPage
    rw [if_neg (by omega)]
  · intro h
    unfold handleNextPage
    rw [if_pos h]
  · intro h
    unfold handlePreviousPage
    rw [if_pos h]
  · intro h
    unfold handlePreviousPage
    by_cases hc : s.currentPage > 1
    · rw [if_pos hc]
      simp only []
      omega
    · rw [if_neg hc]
      exact h
  · intro h
    unfold handleNextPage
    by_cases hc : s.currentPage < s.pageCount
    · rw [if_pos hc]
      simp only []
      omega
    · rw [if_neg hc]
      exact h

/-- Witness for C7: at page 1 of 1, `handlePreviousPage` is a no-op. -/
theorem C7_pagination_boundaries_witness :
    handlePreviousPage st0 = (st0, []) :=
  (C7_pagination_boundaries st0).1 rfl

/-- C6: deleting a record removes it from the local list; when it was the
only record on the page, the page is the last one, and the page number
exceeds 1, the page number steps back by exactly one and a busy re-fetch
is invoked; deleting the only record on page 1 of 1 leaves the page number
at 1 with an empty list and fires no page-correction re-fetch. -/
theorem C6_delete_page_correction (s : VMState) (now : Int) (id : String)
    (resp : ApiResult Unit) (hid : id ≠ "")
    (hmem : ∃ vm ∈ s.voicemails, vm.id = id) :
    ((handleDelete s now id resp).1.voicemails =
        s.voicemails.filter (fun v => !(v.id == id)))
    ∧ (s.voicemails.length = 1 → s.currentPage = s.pageCount →
        1 < s.currentPage →
        (handleDelete s now id resp).1.currentPage = s.currentPage - 1 ∧
        Effect.fetchCall true ∈ (handleDelete s now id resp).2)
    ∧ (s.voicemails.length = 1 → s.currentPage = 1 → s.pageCount = 1 →
        (handleDelete s now id resp).1.currentPage = 1 ∧
        (handleDelete s now id resp).1.voicemails = [] ∧
        Effect.fetchCall true ∉ (handleDelete s now id resp).2) := by
  have hid2 : (id == "") = false := by
    simpa using hid
  obtain ⟨hvms, hpage, heff⟩ := handleDelete_parts s now id resp hid2
  refine ⟨hvms, ?_, ?_⟩
  · intro hlen heq hgt
    have hc : ((s.currentPage == s.pageCount) && (s.voicemails.length == 1)
        && decide (1 < s.currentPage)) = true := by
      rw [heq, hlen]
      simp
      omega
    constructor
    · rw [hpage, if_pos hc]
    · rw [heff, if_pos hc]
      simp
  · intro hlen hcp hpc
    have hc : ((s.currentPage == s.pageCount) && (s.voicemails.length == 1)
        && decide (1 < s.currentPage)) = false := by
      rw [hcp]
      simp
    rcases List.length_eq_one.mp hlen with ⟨w, hw⟩
    rcases hmem with ⟨vm, hvm, hvmid⟩
    rw [hw] at hvm
    have hwid : (w.id == id) = true := by
      rcases List.mem_singleton.mp hvm with h
      rw [← h, hvmid]
      exact beq_self_eq_true id
    refine ⟨?_, ?_, ?_⟩
    · rw [hpage, hc]
      rw [if_neg (fun hx => Bool.noConfusion hx)]
      exact hcp
    · rw [hvms, hw]
      simp [List.filter, hwid]
    · rw [heff, hc]
      rw [if_neg (fun hx => Bool.noConfusion hx)]
      simp

/-- Witness for C6: deleting the only voicemail on page 1 of 1 keeps the
page number at 1, empties the list, and fires no re-fetch. -/
theorem C6_delete_page_correction_witness :
    (handleDelete st0 0 "a" (ApiResult.ok ())).1.currentPage = 1 ∧
    (handleDelete st0 0 "a" (ApiResult.ok ())).1.voicemails = [] ∧
    Effect.fetchCall true ∉ (handleDelete st0 0 "a" (ApiResult.ok ())).2 :=
  (C6_delete_page_correction st0 0 "a" (ApiResult.ok ()) (by decide)
    ⟨vmA, by decide, rfl⟩).2.2 rfl rfl rfl

/-- C2 counterexample: with a verifier stored, a failed token exchange
(non-ok HTTP response) completes the attempt, yet the stored
PendingAuthorization is NOT cleared — `pkce_code_verifier` is still
present afterwards — refuting "cleared unconditionally once a
code-exchange attempt completes, success or failure". -/
theorem C2_exchange_counterexample :
    (exchangeCodeForToken { pkceCodeVerifier := some "ver" }
        { accessToken := none, tokenExpiration := none } 0
        TokenFetchOutcome.notOk).session.pkceCodeVerifier = some "ver"
    ∧ (exchangeCodeForToken { pkceCodeVerifier := some "ver" }
        { accessToken := none, tokenExpiration := none } 0
        TokenFetchOutcome.notOk).token = none := by decide

/-- C2 as amended: on a successful exchange the access token and the
computed expiry `now + expires_in * 1000` are written to the Token Store,
the verifier is cleared, and the token is returned; on any failure
(missing/falsy verifier, network error, or non-ok response) the function
returns `null`, surfaces an error message, and leaves both the verifier
and the Token Store unchanged — the verifier is cleared only on
success. -/
theorem C2_exchange_behavior (ss : SessionStore) (ls : LocalStore)
    (now : Int) (outcome : TokenFetchOutcome) :
    (∀ td, outcome = TokenFetchOutcome.ok td →
      jsTruthyStr ss.pkceCodeVerifier = true →
      exchangeCodeForToken ss ls now outcome =
        { session := { pkceCodeVerifier := none },
          store := { accessToken := some td.accessToken,
                     tokenExpiration :=
                       some (toString (now + td.expiresIn * 1000)) },
          token := some td.accessToken, errorMsg := none })
    ∧ ((∀ td, outcome ≠ TokenFetchOutcome.ok td) ∨
        jsTruthyStr ss.pkceCodeVerifier = false →
      exchangeCodeForToken ss ls now outcome =
        { session := ss, store := ls, token := none,
          errorMsg :=
            some "Failed to exchange authorization code for token" }) := by
  constructor
  · intro td hok htruthy
    subst hok
    unfold exchangeCodeForToken
    rw [htruthy]
    rfl
  · intro h
    unfold exchangeCodeForToken
    rcases h with h | h
    · by_cases htruthy : jsTruthyStr ss.pkceCodeVerifier
      · rw [htruthy]
        simp only [Bool.not_true]
        rw [if_neg (fun hx => Bool.noConfusion hx)]
        cases outcome with
        | netError m => rfl
        | notOk => rfl
        | ok td => exact absurd rfl (h td)
      · rw [Bool.eq_false_iff.mpr htruthy]
        rfl
    · rw [h]
      rfl

/-- Witness for C2: a successful exchange at concrete inputs. -/
theorem C2_exchange_behavior_witness :
    exchangeCodeForToken { pkceCodeVerifier := some "ver" }
      { accessToken := none, tokenExpiration := none } 0
      (TokenFetchOutcome.ok { accessToken := "tok", expiresIn := 3600 }) =
    { session := { pkceCodeVerifier := none },
      store := { accessToken := some "tok",
                 tokenExpiration := some (toString ((0 : Int) + 3600 * 1000)) },
      token := some "tok", errorMsg := none } :=
  (C2_exchange_behavior { pkceCodeVerifier := some "ver" }
      { accessToken := none, tokenExpiration := none } 0
      (TokenFetchOutcome.ok { accessToken := "tok", expiresIn := 3600 })).1
    { accessToken := "tok", expiresIn := 3600 } rfl (by decide)

lemma updateVoicemailSettle_apiError (s : VMState) (id : String)
    (u : UpdatesPatch) (m : String) :
    updateVoicemailSettle s id u (ApiResult.apiError m) =
      ({ s with errorMessage := (some
          ("Failed to update voicemail: " ++ m)) }, []) := rfl

/-- C3 counterexample: `handleSaveNote` applies the note save to the local
cache (`originalNote` := note, `isEditing` := false) even though the
remote PATCH failed — refuting "the local cache is left unchanged by that
mutation if the remote request fails". -/
theorem C3_optimistic_counterexample :
    ((handleSaveNote st0 0 "a" (ApiResult.apiError "boom")).1.voicemails.map
        (fun v => (v.originalNote, v.isEditing)) = [("server note", false)])
    ∧ st0.voicemails.map (fun v => (v.originalNote, v.isEditing)) =
        [("old original", true)] := by decide

/-- C3 as amended: only the read-flag mutation is applied strictly after
remote success — a failed PATCH leaves `updateVoicemail`'s cache untouched,
and a successful one updates the record's read flag and derived labels.
`handleSaveNote` and `handleDelete`, by contrast, apply their local changes
(the saved note's `originalNote`/`isEditing` update; removal of the record)
synchronously, so the change persists even when the remote request
fails. -/
theorem C3_optimistic_mutations :
    (∀ (s : VMState) (now : Int) (id : String) (u : UpdatesPatch)
        (m : String),
      (updateVoicemailRun s now id u (ApiResult.apiError m)).1.voicemails =
        s.voicemails)
    ∧ (∀ (s : VMState) (now : Int) (id : String) (b : Bool) (vm : CachedVM),
        s.voicemails.find? (fun v => v.id == id) = some vm →
        ((updateVoicemailRun s now id
            { read := some b, note := none, deleted := none }
            (ApiResult.ok ())).1.voicemails.find?
          (fun v => v.id == id)) =
          some { vm with
                  read := b
                  readMenuLabel :=
                    if b then "Mark as Unread" else "Mark as Read"
                  cardClass := getCardClass b vm.isExpanded
                  callerClass := if b then "read-text" else "unread-text" })
    ∧ (∀ (s : VMState) (now : Int) (id : String) (m : String) (vm : CachedVM),
        s.voicemails.find? (fun v => v.id == id) = some vm →
        ((handleSaveNote s now id (ApiResult.apiError m)).1.voicemails.find?
          (fun v => v.id == id)) =
          some { vm with originalNote := vm.note, isEditing := false })
    ∧ (∀ (s : VMState) (now : Int) (id : String) (m : String), id ≠ "" →
        (handleDelete s now id (ApiResult.apiError m)).1.voicemails =
          s.voicemails.filter (fun v => !(v.id == id))) := by
  refine ⟨?_, ?_, ?_, ?_⟩
  · intro s now id u m
    rfl
  · intro s now id b vm hfind
    unfold updateVoicemailRun updateVoicemailSettle
    simp only [updateVoicemailStart_voicemails]
    rw [hfind]
    simp only []
    rw [find?_updateFirstBy]
    · rw [hfind]
      rfl
    · intro v
      rfl
  · intro s now id m vm hfind
    unfold handleSaveNote
    rw [hfind]
    simp only [updateVoicemailStart_voicemails]
    rw [updateVoicemailSettle_apiError]
    rw [find?_updateFirstBy]
    · rw [hfind]
      rfl
    · intro v
      rfl
  · intro s now id m hid
    exact (handleDelete_parts s now id (ApiResult.apiError m)
      (by simpa using hid)).1

/-- Witness for C3 at concrete inputs: a successful read PATCH updates the
record's read flag and labels. -/
theorem C3_optimistic_mutations_witness :
    ((updateVoicemailRun st0 0 "a"
        { read := some true, note := none, deleted := none }
        (ApiResult.ok ())).1.voicemails.find?
      (fun v => v.id == "a")) =
      some { vmA with
              read := true
              readMenuLabel := "Mark as Unread"
              cardClass := getCardClass true vmA.isExpanded
              callerClass := "read-text" } :=
  C3_optimistic_mutations.2.1 st0 0 "a" true vmA (by decide)

lemma stringDataAppend (s t : String) : (s ++ t).data = s.data ++ t.data := by
  cases s
  cases t
  rfl

lemma isPrefixList_append (p l1 l2 : List Char)
    (h : isPrefixList p l1 = true) : isPrefixList p (l1 ++ l2) = true := by
  induction p generalizing l1 with
  | nil => rfl
  | cons c cs ih =>
    cases l1 with
    | nil => exact absurd h (by simp [isPrefixList])
    | cons d ds =>
      simp only [List.cons_append, List.append_eq, isPrefixList] at h ⊢
      rcases (Bool.and_eq_true _ _).mp h with ⟨h1, h2⟩
      rw [h1, ih ds h2]
      rfl

lemma listContainsSub_append (pat l1 l2 : List Char)
    (h : listContainsSub pat l1 = true) :
    listContainsSub pat (l1 ++ l2) = true := by
  induction l1 with
  | nil =>
    have hp : pat = [] := by
      simpa [listContainsSub, List.isEmpty_iff] using h
    subst hp
    cases l2 with
    | nil => rfl
    | cons c cs => simp [listContainsSub, isPrefixList]
  | cons c cs ih =>
    simp only [List.cons_append, List.append_eq, listContainsSub] at h ⊢
    rcases (Bool.or_eq_true _ _).mp h with h1 | h1
    · have hh := isPrefixList_append pat (c :: cs) l2 h1
      simp only [List.cons_append] at hh
      rw [hh]
      simp
    · rw [ih h1]
      simp

lemma includesJs_append_left (s t pat : String)
    (h : includesJs s pat = true) : includesJs (s ++ t) pat = true := by
  unfold includesJs at h ⊢
  rw [stringDataAppend]
  exact listContainsSub_append _ _ _ h

lemma runGetAccessToken_eq (s : VMState) (now : Int) :
    runGetAccessToken s now =
      ({ s with
          localStore := (getAccessToken s.localStore s.isAuthenticated
            now).store,
          isAuthenticated := (getAccessToken s.localStore s.isAuthenticated
            now).isAuthenticated },
       (getAccessToken s.localStore s.isAuthenticated now).token) := rfl

/-- C4 counterexample: a 401 failure of the `PATCH` issued by
`updateVoicemail` (read toggle) is surfaced as a blocking error message,
the stored session is NOT cleared, and `login()` is NOT re-triggered —
refuting "in every operation that issues one". -/
theorem C4_401_counterexample :
    (updateVoicemailRun st0 0 "a"
        { read := some true, note := none, deleted := none }
        (callGenesysCloudApi
          (HttpOutcome.httpFailure 401 "unauthorized"))).1.errorMessage =
      some "Failed to update voicemail: API error (401): unauthorized"
    ∧ (updateVoicemailRun st0 0 "a"
        { read := some true, note := none, deleted := none }
        (callGenesysCloudApi
          (HttpOutcome.httpFailure 401 "unauthorized"))).1.localStore =
      { accessToken := some "tok", tokenExpiration := some "1000" }
    ∧ (updateVoicemailRun st0 0 "a"
        { read := some true, note := none, deleted := none }
        (callGenesysCloudApi
          (HttpOutcome.httpFailure 401 "unauthorized"))).2 =
      [Effect.patchRequest "a"] := by decide

/-- C4 as amended: a Gateway HTTP failure with status 401 always produces
an error message containing `"401"`; `loadVoicemails` reacts to such a
failure (with a valid stored token) by clearing both stored session keys,
marking the state unauthenticated, invoking `login()` exactly once, and
surfacing no error message; but `updateVoicemail` — the partial-update
path — does not special-case 401: it leaves the stored session untouched,
surfaces the failure as a blocking error message, and never re-triggers
login. -/
theorem C4_401_handling :
    (∀ text, ∃ m,
      (callGenesysCloudApi (HttpOutcome.httpFailure 401 text) :
          ApiResult Unit) =
        ApiResult.apiError m ∧ (m == "") = false ∧
        includesJs m "401" = true)
    ∧ (∀ (env : DisplayEnv) (s : VMState) (showLoader : Bool) (now : Int)
        (m t e : String) (v : Int),
        s.localStore.accessToken = some t → t ≠ "" →
        s.localStore.tokenExpiration = some e → parseIntJs e = some v →
        now < v → (m == "") = false → includesJs m "401" = true →
        loadVoicemails env s showLoader now (ApiResult.apiError m) =
          ({ s with
              isLoading := false, errorMessage := none,
              localStore := { accessToken := none, tokenExpiration := none },
              isAuthenticated := false },
           [Effect.searchRequest, Effect.loginCall]))
    ∧ (∀ (s : VMState) (now : Int) (id : String) (u : UpdatesPatch)
        (m t e : String) (v : Int),
        s.localStore.accessToken = some t → t ≠ "" →
        s.localStore.tokenExpiration = some e → parseIntJs e = some v →
        now < v →
        (updateVoicemailRun s now id u
            (ApiResult.apiError m)).1.localStore = s.localStore ∧
        (updateVoicemailRun s now id u
            (ApiResult.apiError m)).1.errorMessage =
          some ("Failed to update voicemail: " ++ m) ∧
        (updateVoicemailRun s now id u (ApiResult.apiError m)).2 =
          [Effect.patchRequest id]) := by
  refine ⟨?_, ?_, ?_⟩
  · intro text
    refine ⟨"API error (401): " ++ text, rfl, ?_, ?_⟩
    · apply beq_eq_false_iff_ne.mpr
      intro hcontra
      have hdata := congrArg String.data hcontra
      rw [stringDataAppend] at hdata
      rcases List.append_eq_nil.mp hdata with ⟨h1, _⟩
      exact absurd h1 (by decide)
    · exact includesJs_append_left _ _ _ (by decide)
  · intro env s showLoader now m t e v ht hte he hv hlt hm1 hm2
    have hga := getAccessToken_of_valid s.localStore s.isAuthenticated now
      t e v ht hte he hv hlt
    unfold loadVoicemails
    dsimp only [runGetAccessToken_eq]
    rw [hga]
    dsimp only
    rw [hm1, hm2]
    rfl
  · intro s now id u m t e v ht hte he hv hlt
    have hga := getAccessToken_of_valid s.localStore s.isAuthenticated now
      t e v ht hte he hv hlt
    refine ⟨?_, rfl, rfl⟩
    show (updateVoicemailStart s now).localStore = s.localStore
    rw [updateVoicemailStart_localStore, hga]

/-- Witness for C4: a 401 search failure with a valid stored token clears
the session, marks the state unauthenticated, and fires `login()` once. -/
theorem C4_401_handling_witness :
    loadVoicemails sampleEnv st0 true 0
      (ApiResult.apiError "API error (401): unauthorized") =
      ({ st0 with
          isLoading := false, errorMessage := none,
          localStore := { accessToken := none, tokenExpiration := none },
          isAuthenticated := false },
       [Effect.searchRequest, Effect.loginCall]) :=
  C4_401_handling.2.1 sampleEnv st0 true 0
    "API error (401): unauthorized" "tok" "1000" 1000 rfl (by decide) rfl
    (by decide) (by decide) (by decide) (by decide)

/-- C1 counterexample: re-fetching a page that contains a record already in
the cache resets its `showMenu` to `false` and its `originalNote` to the
server's note — the prior cache had `showMenu = true` and
`originalNote = "old original"` — refuting "all of its ephemeral UI fields
... equal their values in the prior cache state". -/
theorem C1_merge_counterexample :
    (mergeVoicemails sampleEnv [vmA] [srvA]).map
        (fun c => (c.showMenu, c.originalNote)) = [(false, "server note")]
    ∧ vmA.showMenu = true ∧ vmA.originalNote = "old original"
    ∧ srvA.id = vmA.id := by decide

/-- C1 as amended: provided the server page's record ids are pairwise
distinct, the merged cache contains no two records with the same id; every
merged record carries forward `audioUrl` (through `|| null`, collapsing a
falsy value), `isExpanded`, `isEditing` and the per-record loading flag
from the prior cache entry with its id, or default-initializes them when
the id is new — but `showMenu` is always reset to `false` and
`originalNote` is always reset to the server record's note. -/
theorem C1_merge_invariant (env : DisplayEnv) (prior : List CachedVM)
    (results : List ServerVM) :
    ((results.map ServerVM.id).Nodup →
      ((mergeVoicemails env prior results).map CachedVM.id).Nodup)
    ∧ ∀ c ∈ mergeVoicemails env prior results,
        c.showMenu = false ∧ c.originalNote = c.note ∧
        (match prior.find? (fun v => v.id == c.id) with
         | some e => c.audioUrl = jsStrOrNull e.audioUrl ∧
             c.isExpanded = e.isExpanded ∧ c.isEditing = e.isEditing ∧
             c.isLoading = e.isLoading
         | none => c.audioUrl = none ∧ c.isExpanded = false ∧
             c.isEditing = false ∧ c.isLoading = false) := by
  constructor
  · intro hnd
    have hmap : (mergeVoicemails env prior results).map CachedVM.id =
        (results.filter (fun vm => !vm.deleted)).map ServerVM.id := by
      unfold mergeVoicemails
      rw [List.map_map]
      rfl
    rw [hmap]
    exact List.Nodup.sublist
      ((List.filter_sublist results).map ServerVM.id) hnd
  · intro c hc
    unfold mergeVoicemails at hc
    rcases List.mem_map.mp hc with ⟨vm, hvm, hceq⟩
    subst hceq
    refine ⟨rfl, rfl, ?_⟩
    cases hfind : prior.find?
        (fun v => v.id == (mergeOne env prior vm).id) with
    | none =>
      have hfind2 : prior.find? (fun v => v.id == vm.id) = none := hfind
      refine ⟨?_, ?_, ?_, ?_⟩ <;> simp [mergeOne, hfind2]
    | some e =>
      have hfind2 : prior.find? (fun v => v.id == vm.id) = some e := hfind
      refine ⟨?_, ?_, ?_, ?_⟩ <;> simp [mergeOne, hfind2]

/-- Witness for C1: a two-record server page with distinct ids merges into
a cache with pairwise-distinct ids. -/
theorem C1_merge_invariant_witness :
    ((mergeVoicemails sampleEnv [vmA] [srvA, srvB]).map CachedVM.id).Nodup :=
  (C1_merge_invariant sampleEnv [vmA] [srvA, srvB]).1 (by decide)

/-- Every record of the cached list is non-deleted. -/
def allNotDeleted (l : List CachedVM) : Prop :=
  ∀ vm ∈ l, vm.deleted = false

lemma settle_voicemails_cases (s : VMState) (id : String) (u : UpdatesPatch)
    (resp : ApiResult Unit) :
    (updateVoicemailSettle s id u resp).1.voicemails = s.voicemails ∨
    ∃ b, u.read = some b ∧
      (updateVoicemailSettle s id u resp).1.voicemails =
        updateFirstBy s.voicemails id (fun v =>
          { v with
              read := b
              readMenuLabel := if b then "Mark as Unread" else "Mark as Read"
              cardClass := getCardClass b v.isExpanded
              callerClass := if b then "read-text" else "unread-text" }) := by
  cases resp with
  | apiError m => exact Or.inl rfl
  | ok x =>
    cases hfind : s.voicemails.find? (fun v => v.id == id) with
    | none =>
      left
      unfold updateVoicemailSettle
      rw [hfind]
    | some vm =>
      cases hread : u.read with
      | none =>
        left
        unfold updateVoicemailSettle
        rw [hfind, hread]
      | some b =>
        right
        refine ⟨b, rfl, ?_⟩
        unfold updateVoicemailSettle
        rw [hfind, hread]

/-- C9: the cache never holds a soft-deleted record — the merge filters
deleted records out of every server page, deletion removes the record, and
the read-flag update preserves `deleted` — so the derived unread count
equals the count of cached non-deleted unread records. -/
theorem C9_no_deleted_in_cache :
    (∀ (env : DisplayEnv) (prior : List CachedVM)
        (results : List ServerVM),
      allNotDeleted (mergeVoicemails env prior results))
    ∧ (∀ (s : VMState) (now : Int) (id : String) (resp : ApiResult Unit),
        allNotDeleted s.voicemails →
        allNotDeleted (handleDelete s now id resp).1.voicemails)
    ∧ (∀ (s : VMState) (now : Int) (id : String) (u : UpdatesPatch)
        (resp : ApiResult Unit),
        allNotDeleted s.voicemails →
        allNotDeleted (updateVoicemailRun s now id u resp).1.voicemails)
    ∧ (∀ l, allNotDeleted l →
        unreadCount l =
          (l.filter (fun vm => !vm.read && !vm.deleted)).length) := by
  refine ⟨?_, ?_, ?_, ?_⟩
  · intro env prior results c hc
    unfold mergeVoicemails at hc
    rcases List.mem_map.mp hc with ⟨vm, hvm, hceq⟩
    subst hceq
    rcases List.mem_filter.mp hvm with ⟨_, hdel⟩
    show vm.deleted = false
    simpa using hdel
  · intro s now id resp h
    by_cases hid : (id == "") = true
    · have heq : handleDelete s now id resp = (s, []) := by
        unfold handleDelete
        rw [hid]
        rw [if_pos rfl]
      rw [heq]
      exact h
    · have hvms := (handleDelete_parts s now id resp
        (Bool.eq_false_iff.mpr hid)).1
      rw [hvms]
      intro vm hvm
      exact h vm (List.mem_of_mem_filter hvm)
  · intro s now id u resp h
    have hstart : allNotDeleted (updateVoicemailStart s now).voicemails := by
      rw [updateVoicemailStart_voicemails]
      exact h
    rcases settle_voicemails_cases (updateVoicemailStart s now) id u resp
        with hcase | ⟨b, hread, hcase⟩
    · show allNotDeleted
        (updateVoicemailSettle (updateVoicemailStart s now) id u
          resp).1.voicemails
      rw [hcase, updateVoicemailStart_voicemails]
      exact h
    · show allNotDeleted
        (updateVoicemailSettle (updateVoicemailStart s now) id u
          resp).1.voicemails
      rw [hcase, updateVoicemailStart_voicemails]
      intro vm hvm
      rcases mem_updateFirstBy _ _ _ _ hvm with hmem | ⟨w, hw, hwe⟩
      · exact h vm hmem
      · rw [hwe]
        exact h w hw
  · intro l h
    unfold unreadCount
    have hfe : l.filter (fun vm => !vm.read) =
        l.filter (fun vm => !vm.read && !vm.deleted) := by
      apply List.filter_congr
      intro x hx
      rw [h x hx]
      simp
    rw [hfe]

/-- Witness for C9 on a concrete cache. -/
theorem C9_no_deleted_in_cache_witness :
    unreadCount [vmA] =
      ([vmA].filter (fun vm => !vm.read && !vm.deleted)).length :=
  C9_no_deleted_in_cache.2.2.2 [vmA] (by unfold allNotDeleted; decide)

lemma mapGet_map_overwrite (m : List (String × String)) (k v : String)
    (h : mapHas m k = true) :
    mapGet (m.map (fun p => if p.1 == k then (k, v) else p)) k = some v := by
  induction m with
  | nil => simp [mapHas, mapGet] at h
  | cons p ps ih =>
    by_cases hp : (p.1 == k) = true
    · simp [mapGet, List.find?, hp]
    · have h2 : mapHas ps k = true := by
        simpa [mapHas, List.find?, hp] using h
      simpa [mapGet, List.find?, hp] using ih h2

lemma mapGet_append_absent (m : List (String × String)) (k v : String)
    (h : mapHas m k = false) :
    mapGet (m ++ [(k, v)]) k = some v := by
  induction m with
  | nil => simp [mapGet, List.find?]
  | cons p ps ih =>
    have hp : (p.1 == k) = false := by
      by_cases hpp : (p.1 == k) = true
      · simp [mapHas, List.find?, hpp] at h
      · exact Bool.eq_false_iff.mpr hpp
    have h2 : mapHas ps k = false := by
      simpa [mapHas, List.find?, hp] using h
    simpa [mapGet, List.find?, hp] using ih h2

lemma mapGet_mapSet_self (m : List (String × String)) (k v : String) :
    mapGet (mapSet m k v) k = some v := by
  unfold mapSet
  by_cases h : mapHas m k = true
  · rw [if_pos h]
    exact mapGet_map_overwrite m k v h
  · rw [if_neg (by simpa using h)]
    exact mapGet_append_absent m k v (Bool.eq_false_iff.mpr h)

lemma mapHas_mapSet_self (m : List (String × String)) (k v : String) :
    mapHas (mapSet m k v) k = true := by
  have hg := mapGet_mapSet_self m k v
  unfold mapGet at hg
  unfold mapHas
  cases hf : (mapSet m k v).find? (fun p => p.1 == k) with
  | none =>
    rw [hf] at hg
    simp at hg
  | some p => rfl

/-- C8 counterexample: when the first `loadVoicemailAudio` call fails, no
URL is cached, so an immediately repeated call issues a second media
request — two network fetches for the same id, refuting "calling it twice
in succession issues at most one media fetch". -/
theorem C8_loadAudio_counterexample :
    (loadVoicemailAudio st0 0 "a" (ApiResult.apiError "net down")).2 ++
      (loadVoicemailAudio
        (loadVoicemailAudio st0 0 "a" (ApiResult.apiError "net down")).1
        0 "a" (ApiResult.apiError "net down")).2 =
    [Effect.mediaRequest "a", Effect.mediaRequest "a"] := by decide

lemma loadVoicemailAudio_ok_fetch (s : VMState) (now : Int) (id u : String)
    (vm : CachedVM)
    (hfind : s.voicemails.find? (fun v => v.id == id) = some vm)
    (hmiss : mapHas s.loadedAudioUrls id = false)
    (hu : (u == "") = false) :
    (loadVoicemailAudio s now id
        (ApiResult.ok (some { mediaFileUri := some u }))).2 =
      [Effect.mediaRequest id]
    ∧ (loadVoicemailAudio s now id
        (ApiResult.ok (some { mediaFileUri := some u }))).1.loadedAudioUrls =
      mapSet s.loadedAudioUrls id u
    ∧ ((loadVoicemailAudio s now id
        (ApiResult.ok (some { mediaFileUri := some u }))).1.voicemails.find?
          (fun v => v.id == id)).map (fun v => (v.audioUrl, v.isLoading)) =
      some (some u, false) := by
  have hj : (some { mediaFileUri := some u } : Option MediaResponse).bind
      (fun mr => jsStrOrNull mr.mediaFileUri) = some u := by
    simp [jsStrOrNull, jsTruthyStr, hu]
  unfold loadVoicemailAudio
  rw [hfind, hmiss]
  rw [if_neg (fun hx => Bool.noConfusion hx)]
  dsimp only [runGetAccessToken_eq]
  rw [hj]
  dsimp only
  refine ⟨rfl, rfl, ?_⟩
  rw [find?_updateFirstBy]
  · rw [find?_updateFirstBy]
    · rw [find?_updateFirstBy]
      · rw [hfind]
        rfl
      · intro v
        rfl
    · intro v
      rfl
  · intro v
    rfl

lemma loadVoicemailAudio_cached (s : VMState) (now : Int) (id : String)
    (w : CachedVM) (resp : ApiResult (Option MediaResponse))
    (hfind : s.voicemails.find? (fun v => v.id == id) = some w)
    (hhit : mapHas s.loadedAudioUrls id = true) :
    loadVoicemailAudio s now id resp =
      ({ s with voicemails := (updateFirstBy s.voicemails id (fun v =>
          { v with audioUrl := (mapGet s.loadedAudioUrls id) })) }, []) := by
  unfold loadVoicemailAudio
  rw [hfind, hhit]
  rw [if_pos rfl]

lemma loadVoicemailAudio_clears_isLoading (s : VMState) (now : Int)
    (id : String) (vm : CachedVM) (resp : ApiResult (Option MediaResponse))
    (hfind : s.voicemails.find? (fun v => v.id == id) = some vm)
    (hmiss : mapHas s.loadedAudioUrls id = false) :
    ((loadVoicemailAudio s now id resp).1.voicemails.find?
        (fun v => v.id == id)).map CachedVM.isLoading = some false := by
  unfold loadVoicemailAudio
  rw [hfind, hmiss]
  rw [if_neg (fun hx => Bool.noConfusion hx)]
  dsimp only [runGetAccessToken_eq]
  cases resp with
  | apiError m =>
    dsimp only
    rw [find?_updateFirstBy]
    · rw [find?_updateFirstBy]
      · rw [hfind]
        rfl
      · intro v
        rfl
    · intro v
      rfl
  | ok payload =>
    dsimp only
    cases hb : payload.bind (fun mr => jsStrOrNull mr.mediaFileUri) with
    | some u2 =>
      dsimp only
      rw [find?_updateFirstBy]
      · rw [find?_updateFirstBy]
        · rw [find?_updateFirstBy]
          · rw [hfind]
            rfl
          · intro v
            rfl
        · intro v
          rfl
      · intro v
        rfl
    | none =>
      dsimp only
      rw [find?_updateFirstBy]
      · rw [find?_updateFirstBy]
        · rw [hfind]
          rfl
        · intro v
          rfl
      · intro v
        rfl

/-- C8 as amended: when the FIRST call's media fetch succeeds (a truthy
`mediaFileUri`), a second call for the same id issues no network request
and serves the URL from the AudioUrlCache; a failed first call caches
nothing, so the idempotence only holds for a successful first fetch (see
the counterexample); and after any call that takes the fetch path —
success or failure — the per-record loading flag ends up cleared. -/
theorem C8_loadAudio_idempotence (s : VMState) (now1 now2 : Int)
    (id u : String) (vm : CachedVM)
    (resp2 : ApiResult (Option MediaResponse))
    (hfind : s.voicemails.find? (fun v => v.id == id) = some vm)
    (hmiss : mapHas s.loadedAudioUrls id = false)
    (hu : (u == "") = false) :
    (loadVoicemailAudio s now1 id
        (ApiResult.ok (some { mediaFileUri := some u }))).2 =
      [Effect.mediaRequest id]
    ∧ (loadVoicemailAudio (loadVoicemailAudio s now1 id
          (ApiResult.ok (some { mediaFileUri := some u }))).1 now2 id
        resp2).2 = []
    ∧ ((loadVoicemailAudio (loadVoicemailAudio s now1 id
          (ApiResult.ok (some { mediaFileUri := some u }))).1 now2 id
        resp2).1.voicemails.find? (fun v => v.id == id)).map
        (fun v => (v.audioUrl, v.isLoading)) = some (some u, false)
    ∧ (∀ resp, ((loadVoicemailAudio s now1 id resp).1.voicemails.find?
          (fun v => v.id == id)).map CachedVM.isLoading = some false) := by
  obtain ⟨h1, h2, h3⟩ := loadVoicemailAudio_ok_fetch s now1 id u vm
    hfind hmiss hu
  refine ⟨h1, ?_, ?_, fun resp =>
    loadVoicemailAudio_clears_isLoading s now1 id vm resp hfind hmiss⟩
  · cases hf : (loadVoicemailAudio s now1 id
        (ApiResult.ok (some { mediaFileUri := some u
          }))).1.voicemails.find? (fun v => v.id == id) with
    | none =>
      rw [hf] at h3
      simp at h3
    | some w =>
      have hhit : mapHas (loadVoicemailAudio s now1 id
          (ApiResult.ok (some { mediaFileUri := some u
            }))).1.loadedAudioUrls id = true := by
        rw [h2]
        exact mapHas_mapSet_self _ _ _
      have hcach := loadVoicemailAudio_cached _ now2 id w resp2 hf hhit
      rw [hcach]
  · cases hf : (loadVoicemailAudio s now1 id
        (ApiResult.ok (some { mediaFileUri := some u
          }))).1.voicemails.find? (fun v => v.id == id) with
    | none =>
      rw [hf] at h3
      simp at h3
    | some w =>
      have hw : (w.audioUrl, w.isLoading) = (some u, false) := by
        rw [hf] at h3
        simpa using h3
      have hhit : mapHas (loadVoicemailAudio s now1 id
          (ApiResult.ok (some { mediaFileUri := some u
            }))).1.loadedAudioUrls id = true := by
        rw [h2]
        exact mapHas_mapSet_self _ _ _
      have hcach := loadVoicemailAudio_cached _ now2 id w resp2 hf hhit
      rw [hcach]
      dsimp only
      rw [find?_updateFirstBy]
      · rw [hf]
        have hget : mapGet (loadVoicemailAudio s now1 id
            (ApiResult.ok (some { mediaFileUri := some u
              }))).1.loadedAudioUrls id = some u := by
          rw [h2]
          exact mapGet_mapSet_self _ _ _
        have hwl : w.isLoading = false := congrArg Prod.snd hw
        simp [hget, hwl]
      · intro v
        rfl

/-- Witness for C8 at a concrete state: after a successful first audio
load, the second call issues no media request. -/
theorem C8_loadAudio_idempotence_witness :
    (loadVoicemailAudio (loadVoicemailAudio st0 0 "a"
        (ApiResult.ok (some { mediaFileUri := some "u1" }))).1 0 "a"
      (ApiResult.apiError "unused")).2 = [] :=
  (C8_loadAudio_idempotence st0 0 0 "a" "u1" vmA
    (ApiResult.apiError "unused") (by decide) (by decide) (by decide)).2.1
